import Mathlib

/-!
Verification development for the Career-IQ matching and analysis system.

The repository ships a frontend script (session handling, analysis-request
submission, and rendering of the result envelope) together with a
specification of the backend Matching & Analysis Engine.  The backend
modules themselves (matcher, skill extractor, composer) are declared by the
backend README but their code is not among the provided sources, so those
parts are modelled from the specification; the frontend functions are
embedded directly from the shipped script.
-/

namespace CareerIQ

/-! ## Matcher (spec-modelled) -/

/-- Modelled from the spec: backend `matcher.py` is declared by the backend
README but its code is not among the provided sources.  §4.3:
`matched = resumeSkills ∩ requiredSkills`. -/
def matched (S R : Finset String) : Finset String := S ∩ R

/-- Modelled from the spec: backend `matcher.py` is missing from the sources.
§4.3: `missing = requiredSkills − resumeSkills`. -/
def missing (S R : Finset String) : Finset String := R \ S

/-- Modelled from the spec: backend `matcher.py` is missing from the sources.
§4.3: `extra = resumeSkills − requiredSkills`. -/
def extra (S R : Finset String) : Finset String := S \ R

/-- Modelled from the spec: backend `matcher.py` is missing from the sources.
§4.3: `score = round(100 * |matched| / |requiredSkills|)` when
`requiredSkills` is non-empty, and 0 when it is empty.  Rounding half up is
realised in natural-number arithmetic as `(200*m + r) / (2*r)`. -/
def matchScore (S R : Finset String) : Nat :=
  if R = ∅ then 0
  else (200 * (matched S R).card + R.card) / (2 * R.card)

/-- Modelled from the spec: backend `matcher.py` is missing from the sources.
§4.3 tie-break rule: the presented `matched` sequence follows the required
list's original order. -/
def matchedList (resume required : List String) : List String :=
  required.filter (fun x => decide (x ∈ resume))

/-- Modelled from the spec: backend `matcher.py` is missing from the sources.
§4.3 tie-break rule: `missing` follows the required list's original order. -/
def missingList (resume required : List String) : List String :=
  required.filter (fun x => decide (x ∉ resume))

/-- Modelled from the spec: backend `matcher.py` is missing from the sources.
§4.3 tie-break rule: `extra` follows the resume's original skill order. -/
def extraList (resume required : List String) : List String :=
  resume.filter (fun x => decide (x ∉ required))

/-! ## Result envelope (spec-modelled composer) -/

/-- A JSON-like envelope value: the result contract of §6 is a string-keyed
mapping whose values are numbers, strings, string sequences or booleans. -/
inductive JVal where
  | num (n : Nat)
  | str (s : String)
  | arr (l : List String)
  | bool (b : Bool)
deriving DecidableEq

/-- Modelled from the spec: the AI Enrichment Adapter (§4.7, backend
`ai_service.py` missing from the sources) yields either present narrative
content, an explicitly degraded result, or nothing. -/
inductive Enrichment where
  | present (aiAnalysis roleAnalysis resumeImprovement : String)
  | degraded (reason : String)
  | absent
deriving DecidableEq

/-- Whether the enrichment outcome carries usable narrative content. -/
def Enrichment.ok : Enrichment → Bool
  | .present _ _ _ => true
  | _ => false

/-- Modelled from the spec: §4.8 suppression policy — degraded enrichment
sub-fields are omitted from the envelope entirely; on success the three
narrative fields are included. -/
def enrichmentFields : Enrichment → List (String × JVal)
  | .present a r i =>
      [("ai_analysis", .str a), ("role_analysis", .str r), ("resume_improvement", .str i)]
  | .degraded _ => []
  | .absent => []

/-- Modelled from the spec: the Result Composer (§4.8, backend code missing
from the sources) merges the match partitions, the remaining structural
artifacts (`rest`: recommendations, advanced analysis, suggestions, roadmap)
and the enrichment outcome into the §6 envelope.  The four mandatory keys
and `matched_skill_count` and `ai_enabled` always lead the mapping. -/
def compose (resume required : List String) (rest : List (String × JVal))
    (e : Enrichment) : List (String × JVal) :=
  ("match_score", .num (matchScore resume.toFinset required.toFinset))
    :: ("matched_skills", .arr (matchedList resume required))
    :: ("missing_skills", .arr (missingList resume required))
    :: ("extra_skills", .arr (extraList resume required))
    :: ("matched_skill_count", .num (matchedList resume required).length)
    :: ("ai_enabled", .bool e.ok)
    :: (enrichmentFields e ++ rest)

/-- Key lookup on an envelope, mirroring JavaScript property access. -/
def getKey (env : List (String × JVal)) (k : String) : Option JVal :=
  (env.find? (fun p => p.1 == k)).map (fun p => p.2)

/-- C2: for every resume-skill set `S` and required-skill set `R`, the match
score equals `round (100 * |S ∩ R| / |R|)` when `R` is non-empty and 0 when
`R` is empty; in particular for `R = {Python, SQL, Docker}` and
`S = {Python, SQL, React}` the score is 67, and for empty `R` the score is 0
regardless of `S`. -/
theorem matchScore_round_spec :
    (∀ S R : Finset String, R.Nonempty →
      (matchScore S R : ℤ) = round ((100 * ((matched S R).card : ℚ)) / (R.card : ℚ)))
    ∧ (∀ S : Finset String, matchScore S ∅ = 0)
    ∧ matchScore {"Python", "SQL", "React"} {"Python", "SQL", "Docker"} = 67 := by
  refine ⟨?_, ?_, by decide⟩
  · intro S R h
    have hR : R ≠ ∅ := h.ne_empty
    have hr : 0 < R.card := Finset.card_pos.mpr h
    set m := (matched S R).card with hm
    set r := R.card with hrdef
    rw [matchScore, if_neg hR, round_eq]
    have hx : (100 * (m : ℚ)) / (r : ℚ) + 1 / 2
        = ((200 * m + r : ℕ) : ℚ) / ((2 * r : ℕ) : ℚ) := by
      have hr0 : (r : ℚ) ≠ 0 := Nat.cast_ne_zero.mpr hr.ne'
      push_cast
      field_simp
      ring
    rw [hx]
    symm
    rw [Int.floor_eq_iff]
    have hub : 200 * m + r < ((200 * m + r) / (2 * r) + 1) * (2 * r) := by
      have h1 := Nat.div_add_mod (200 * m + r) (2 * r)
      have h2 := Nat.mod_lt (200 * m + r) (show 0 < 2 * r by omega)
      calc 200 * m + r
          = 2 * r * ((200 * m + r) / (2 * r)) + (200 * m + r) % (2 * r) := h1.symm
        _ < 2 * r * ((200 * m + r) / (2 * r)) + 2 * r := by omega
        _ = ((200 * m + r) / (2 * r) + 1) * (2 * r) := by ring
    constructor
    · rw [le_div_iff₀ (by positivity)]
      push_cast
      exact_mod_cast Nat.div_mul_le_self (200 * m + r) (2 * r)
    · rw [div_lt_iff₀ (by positivity)]
      push_cast
      exact_mod_cast hub
  · intro S
    simp [matchScore]

/-- Witness for C2: the rounded-score formula instantiated at the concrete
scenario sets of the claim. -/
theorem matchScore_round_spec_witness :
    Finset.Nonempty ({"Python", "SQL", "Docker"} : Finset String)
    ∧ (matchScore {"Python", "SQL", "React"} {"Python", "SQL", "Docker"} : ℤ)
      = round ((100 * ((matched {"Python", "SQL", "React"}
          {"Python", "SQL", "Docker"}).card : ℚ))
        / ((({"Python", "SQL", "Docker"} : Finset String)).card : ℚ)) :=
  ⟨by decide, matchScore_round_spec.1 _ _ (by decide)⟩

/-- C3: the matcher's output satisfies `matched = S ∩ R`, `missing = R − S`,
`extra = S − R`; consequently `matched ∪ missing = R`, the two are disjoint,
and every required skill lies in exactly one of `matched` and `missing`. -/
theorem matched_missing_partition :
    ∀ S R : Finset String,
      matched S R = S ∩ R ∧ missing S R = R \ S ∧ extra S R = S \ R
      ∧ matched S R ∪ missing S R = R
      ∧ Disjoint (matched S R) (missing S R)
      ∧ ∀ x ∈ R, (x ∈ matched S R ∧ x ∉ missing S R)
          ∨ (x ∉ matched S R ∧ x ∈ missing S R) := by
  intro S R
  refine ⟨rfl, rfl, rfl, ?_, ?_, ?_⟩
  · ext x
    simp only [matched, missing, Finset.mem_union, Finset.mem_inter, Finset.mem_sdiff]
    tauto
  · rw [Finset.disjoint_left]
    intro a ha hb
    rw [matched, Finset.mem_inter] at ha
    rw [missing, Finset.mem_sdiff] at hb
    exact hb.2 ha.1
  · intro x hx
    by_cases hxs : x ∈ S
    · exact Or.inl (by simp [matched, missing, hx, hxs])
    · exact Or.inr (by simp [matched, missing, hx, hxs])

/-- Witness for C3: the exactly-one clause instantiated at a concrete
required skill. -/
theorem matched_missing_partition_witness :
    ("Python" ∈ ({"Python", "SQL"} : Finset String))
    ∧ (("Python" ∈ matched {"Python"} {"Python", "SQL"}
          ∧ "Python" ∉ missing {"Python"} {"Python", "SQL"})
        ∨ ("Python" ∉ matched {"Python"} {"Python", "SQL"}
          ∧ "Python" ∈ missing {"Python"} {"Python", "SQL"})) :=
  ⟨by decide,
    (matched_missing_partition {"Python"} {"Python", "SQL"}).2.2.2.2.2 "Python" (by decide)⟩

/-- Embedded from the shipped frontend script (`displayResults`): the
matched-count element shows `result.matched_skill_count || 0`, i.e. the
numeric field when present and 0 otherwise. -/
def displayedMatchedCount (env : List (String × JVal)) : Nat :=
  match getKey env "matched_skill_count" with
  | some (.num n) => n
  | _ => 0

/-- Embedded from the shipped frontend script (`displayResults`): one skill
tag is appended per entry of `result.matched_skills`; when the list is
absent or empty a placeholder paragraph is shown and no tags are rendered. -/
def renderedMatchedTags (env : List (String × JVal)) : Nat :=
  match getKey env "matched_skills" with
  | some (.arr l) => l.length
  | _ => 0

/-! ## Client-side rendering (embedded from the shipped frontend script) -/

/-- Whether `pre` is an initial segment of `l` (by `==`). -/
def leadsWith {α : Type} [BEq α] : List α → List α → Bool
  | _, [] => true
  | [], _ :: _ => false
  | a :: as, b :: bs => a == b && leadsWith as bs

/-- Whether `pat` occurs as a contiguous segment of `l`. -/
def hasSub {α : Type} [BEq α] : List α → List α → Bool
  | [], pat => pat.isEmpty
  | c :: cs, pat => leadsWith (c :: cs) pat || hasSub cs pat

/-- JavaScript `String.prototype.includes`: substring containment. -/
def strContains (s pat : String) : Bool := hasSub s.toList pat.toList

/-- JavaScript truthiness of an optional string: `undefined`/`null` and the
empty string are falsy. -/
def jsTruthy : Option String → Bool
  | none => false
  | some s => !(s == "")

/-- The fields of `result.ai_analysis` the shipped script inspects. -/
structure AIAnalysisView where
  parsed : Option Bool
  overall_assessment : Option String
  strengths : List String
  weaknesses : List String
deriving DecidableEq

/-- The fields of `result.resume_improvement` the shipped script inspects. -/
structure ResumeImprovementView where
  parsed : Option Bool
  response : Option String
deriving DecidableEq

/-- Embedded from the shipped frontend script (`displayResults`): the AI
analysis block is rendered only when `ai_enabled` holds, the analysis object
and its `overall_assessment` are truthy, and the assessment contains neither
the substring `unavailable` nor `rule-based`. -/
def callsDisplayAIAnalysis (aiEnabled : Bool) (a : Option AIAnalysisView) : Bool :=
  aiEnabled &&
    (match a with
     | none => false
     | some v =>
       match v.overall_assessment with
       | none => false
       | some oa =>
         !(oa == "") && !(strContains oa "unavailable") && !(strContains oa "rule-based"))

/-- Embedded from the shipped frontend script (`displayResults`): the resume
improvement block is rendered only when `ai_enabled` holds, the object is
present, its `parsed` flag is not `false`, and its `response` (when present)
does not contain the substring `unavailable`. -/
def callsDisplayResumeImprovement (aiEnabled : Bool)
    (ri : Option ResumeImprovementView) : Bool :=
  aiEnabled &&
    (match ri with
     | none => false
     | some v =>
       !(v.parsed == some false) &&
         !(match v.response with
           | some r => strContains r "unavailable"
           | none => false))

/-- Embedded from the shipped frontend script (`displaySmartSuggestions`):
skill cards are rendered from `suggestions.skills_to_add.slice(0, 5)` when
that list is present and non-empty; entries are abstracted to their
identifying skill name since only the count is at issue. -/
def renderedSkillCards : Option (List String) → Nat
  | some l => if l.length > 0 then (l.take 5).length else 0
  | none => 0

/-- Embedded from the shipped frontend script (`displaySmartSuggestions`):
project cards are rendered from `suggestions.projects_to_build.slice(0, 3)`
when that list is present and non-empty. -/
def renderedProjectCards : Option (List String) → Nat
  | some l => if l.length > 0 then (l.take 3).length else 0
  | none => 0

/-! ## Session handling (embedded from the shipped frontend script) -/

/-- The slice of `localStorage` the session functions touch. -/
structure SessionStore where
  session_token : Option String
  user_name : Option String
  user_email : Option String
deriving DecidableEq

/-- Embedded from the shipped frontend script (`clearSession`): removes the
three session keys. -/
def clearSession (_ : SessionStore) : SessionStore := ⟨none, none, none⟩

/-- Outcome of the `fetch` to `/api/verify`: either the promise rejects with
an error (whose `message` may be missing) or a response arrives with its
`ok` status, the parsed `success` flag, and an optional user name. -/
inductive FetchOutcome where
  | throws (msg : Option String)
  | response (ok : Bool) (success : Bool) (userName : Option String)
deriving DecidableEq

/-- The observable effect of `verifySession`: the resulting store and the
page redirect, if any. -/
structure VerifyEffect where
  store : SessionStore
  redirect : Option String
deriving DecidableEq

/-- Embedded from the shipped frontend script (`verifySession`): a falsy
token clears and redirects; a rejected fetch clears and redirects only when
the error message is truthy and does not contain `Failed to fetch`; a
non-ok response or an unsuccessful result clears and redirects; on success
a truthy returned user name is stored. -/
def verifySession (token : Option String) (outcome : FetchOutcome)
    (s : SessionStore) : VerifyEffect :=
  if jsTruthy token then
    match outcome with
    | .throws msg =>
      match msg with
      | some m =>
        if m == "" then ⟨s, none⟩
        else if strContains m "Failed to fetch" then ⟨s, none⟩
        else ⟨clearSession s, some "login.html"⟩
      | none => ⟨s, none⟩
    | .response ok success userName =>
      if !ok then ⟨clearSession s, some "login.html"⟩
      else if !success then ⟨clearSession s, some "login.html"⟩
      else
        match userName with
        | some n =>
          if n == "" then ⟨s, none⟩ else ⟨{ s with user_name := some n }, none⟩
        | none => ⟨s, none⟩
  else ⟨clearSession s, some "login.html"⟩

/-- Embedded from the shipped frontend script (`verifySession`): the fetch
to `/api/verify` is reached only past the falsy-token guard. -/
def fetchIssued (token : Option String) : Bool := jsTruthy token

/-- Embedded from the shipped frontend script (`checkAuth`): on the
dashboard page, a falsy stored token redirects to the login page before any
verification request; otherwise `verifySession` runs (and issues the
request).  Returns the redirect decided by `checkAuth` itself and whether
the verification request is issued. -/
def checkAuth (onDashboard : Bool) (token : Option String) :
    Option String × Bool :=
  if onDashboard then
    if jsTruthy token then (none, fetchIssued token)
    else (some "login.html", false)
  else (none, false)

/-- The verification outcomes on which the shipped script clears the session
and redirects: a truthy non-network error, a non-ok response, or an
unsuccessful result. -/
def clearingOutcome : FetchOutcome → Prop
  | .throws (some m) => ¬(m = "") ∧ strContains m "Failed to fetch" = false
  | .throws none => False
  | .response ok success _ => ok = false ∨ success = false

/-! ## Skill extractor (spec-modelled) -/

/-- Modelled from the spec: backend `skill_extractor.py` is missing from the
sources.  §4.1 input normalization: case-fold and split the text at
punctuation boundaries into lower-case alphanumeric words. -/
def splitWords : List Char → List Char → List String
  | [], acc => if acc.isEmpty then [] else [String.mk acc.reverse]
  | c :: cs, acc =>
    if c.isAlphanum then splitWords cs (c.toLower :: acc)
    else (if acc.isEmpty then [] else [String.mk acc.reverse]) ++ splitWords cs []

/-- Normalized word stream of the input text. -/
def tokenize (text : String) : List String := splitWords text.toList []

/-- Modelled from the spec: the vocabulary entry (surface-form word sequence,
canonical token) whose surface form starts the token stream and is longest —
§4.1 longest-phrase-first n-gram matching with synonym folding to the
canonical token. -/
def longestMatch (vocab : List (List String × String)) (ws : List String) :
    Option (String × Nat) :=
  vocab.foldl
    (fun best entry =>
      if leadsWith ws entry.1 then
        match best with
        | some (_, k) =>
          if entry.1.length > k then some (entry.2, entry.1.length) else best
        | none => some (entry.2, entry.1.length)
      else best)
    none

/-- Modelled from the spec: §4.1 n-gram scan — an already-matched span is
consumed whole, suppressing overlapping shorter matches inside it; the fuel
argument (the stream length at the top call) makes the recursion evidently
total. -/
def scanAux (vocab : List (List String × String)) :
    Nat → List String → List String
  | 0, _ => []
  | _ + 1, [] => []
  | fuel + 1, w :: ws =>
    match longestMatch vocab (w :: ws) with
    | some (canon, k) => canon :: scanAux vocab fuel ((w :: ws).drop (max k 1))
    | none => scanAux vocab fuel ws

/-- Modelled from the spec: §4.1 `extract(text, vocabulary) -> set<SkillToken>`
— normalize, scan longest-phrase-first, and deduplicate so a skill mentioned
several times contributes once. -/
def extract (text : String) (vocab : List (List String × String)) : List String :=
  (scanAux vocab (tokenize text).length (tokenize text)).dedup

/-- Modelled from the spec: the whole pipeline — extract skills from the
resume and job texts, match, and compose the envelope with the structural
artifacts `rest` and the enrichment outcome `e`. -/
def pipeline (resumeText jobText : String) (vocab : List (List String × String))
    (rest : List (String × JVal)) (e : Enrichment) : List (String × JVal) :=
  compose (extract resumeText vocab) (extract jobText vocab) rest e

/-- C4: every result envelope — including the no-skills case — contains the
four keys `match_score`, `matched_skills`, `missing_skills` and
`extra_skills`; with no skills extracted the score is 0 and the three
sequences are empty, so the client may read `match_score` unconditionally. -/
theorem envelope_core_keys_always_present :
    (∀ (resume required : List String) (rest : List (String × JVal)) (e : Enrichment),
        "match_score" ∈ (compose resume required rest e).map Prod.fst
        ∧ "matched_skills" ∈ (compose resume required rest e).map Prod.fst
        ∧ "missing_skills" ∈ (compose resume required rest e).map Prod.fst
        ∧ "extra_skills" ∈ (compose resume required rest e).map Prod.fst)
    ∧ (∀ (rest : List (String × JVal)) (e : Enrichment),
        getKey (compose [] [] rest e) "match_score" = some (.num 0)
        ∧ getKey (compose [] [] rest e) "matched_skills" = some (.arr [])
        ∧ getKey (compose [] [] rest e) "missing_skills" = some (.arr [])
        ∧ getKey (compose [] [] rest e) "extra_skills" = some (.arr [])) := by
  constructor
  · intro resume required rest e
    refine ⟨?_, ?_, ?_, ?_⟩ <;> simp [compose]
  · intro rest e
    refine ⟨rfl, rfl, rfl, rfl⟩

/-- C5: in every composed envelope, `matched_skill_count` equals the length
of `matched_skills`, so the client's matched-count display always agrees
with the number of matched-skill tags it renders. -/
theorem matched_count_agrees_with_tags :
    ∀ (resume required : List String) (rest : List (String × JVal)) (e : Enrichment),
      displayedMatchedCount (compose resume required rest e)
        = renderedMatchedTags (compose resume required rest e)
      ∧ getKey (compose resume required rest e) "matched_skill_count"
        = some (.num (matchedList resume required).length) := by
  intro resume required rest e
  exact ⟨rfl, rfl⟩

/-- The structural face of an envelope: the four mandatory fields of §6. -/
def structuralView (env : List (String × JVal)) :
    Option JVal × Option JVal × Option JVal × Option JVal :=
  (getKey env "match_score", getKey env "matched_skills",
    getKey env "missing_skills", getKey env "extra_skills")

/-- C6: for a fixed (resume, job) input, the structural fields of the
envelope are identical whether enrichment succeeds, degrades or is absent —
the enrichment outcome never interferes with the structural analysis. -/
theorem enrichment_noninterference :
    ∀ (resume required : List String) (rest : List (String × JVal))
      (e₁ e₂ : Enrichment),
      structuralView (compose resume required rest e₁)
        = structuralView (compose resume required rest e₂) := by
  intro resume required rest e₁ e₂
  rfl

/-- C1 counterexample: the claim says the client renders enrichment fields
without any fallback-string detection of its own, i.e. its display decision
depends only on which fields are present, never on narrative string content.
The shipped `displayResults` gate refutes this: two AI-analysis values of
identical field shape — both with a truthy `overall_assessment` — get
different display decisions purely because one assessment contains the
placeholder substring `unavailable`. -/
theorem client_no_sniffing_counterexample :
    ¬ (∀ v₁ v₂ : AIAnalysisView,
        v₁.parsed = v₂.parsed →
        v₁.overall_assessment.isSome = v₂.overall_assessment.isSome →
        jsTruthy v₁.overall_assessment = jsTruthy v₂.overall_assessment →
        v₁.strengths = v₂.strengths →
        v₁.weaknesses = v₂.weaknesses →
        callsDisplayAIAnalysis true (some v₁) = callsDisplayAIAnalysis true (some v₂)) := by
  intro h
  exact absurd
    (h ⟨none, some "Strong backend profile with clear impact", [], []⟩
       ⟨none, some "AI analysis unavailable - showing rule-based summary", [], []⟩
       rfl rfl (by decide) rfl rfl)
    (by decide)

/-- C1 amended: the client itself performs the placeholder-substring
detection — `ai_analysis` is suppressed whenever its overall assessment
contains `unavailable` or `rule-based`, and `resume_improvement` whenever
its response contains `unavailable` — so placeholder narratives are never
rendered, but the detection lives client-side rather than being made
unnecessary by the envelope. -/
theorem client_placeholder_suppression :
    (∀ (b : Bool) (v : AIAnalysisView) (oa : String),
        v.overall_assessment = some oa →
        (strContains oa "unavailable" = true ∨ strContains oa "rule-based" = true) →
        callsDisplayAIAnalysis b (some v) = false)
    ∧ (∀ (b : Bool) (v : ResumeImprovementView) (r : String),
        v.response = some r → strContains r "unavailable" = true →
        callsDisplayResumeImprovement b (some v) = false) := by
  constructor
  · intro b v oa hoa hsub
    rcases hsub with h | h <;> simp [callsDisplayAIAnalysis, hoa, h]
  · intro b v r hr h
    simp [callsDisplayResumeImprovement, hr, h]

/-- Witness for the amended C1: a concrete placeholder assessment is
suppressed by the shipped gate. -/
theorem client_placeholder_suppression_witness :
    ((⟨none, some "AI analysis unavailable", [], []⟩ : AIAnalysisView).overall_assessment
        = some "AI analysis unavailable")
    ∧ callsDisplayAIAnalysis true
        (some ⟨none, some "AI analysis unavailable", [], []⟩) = false :=
  ⟨rfl, client_placeholder_suppression.1 true _ "AI analysis unavailable" rfl
    (Or.inl (by decide))⟩

/-- C7: the client caps the presented smart suggestions — at most 5
skills-to-add cards via `slice(0, 5)` and at most 3 project cards via
`slice(0, 3)`; when the generator supplies at least one project idea,
between 1 and 3 project cards are rendered. -/
theorem suggestion_presentation_caps :
    (∀ skills : Option (List String), renderedSkillCards skills ≤ 5)
    ∧ (∀ projects : Option (List String), renderedProjectCards projects ≤ 3)
    ∧ (∀ l : List String, 1 ≤ l.length →
        1 ≤ renderedProjectCards (some l) ∧ renderedProjectCards (some l) ≤ 3) := by
  refine ⟨?_, ?_, ?_⟩
  · rintro (_ | l)
    · simp [renderedSkillCards]
    · simp only [renderedSkillCards]
      split <;> simp [List.length_take]
  · rintro (_ | l)
    · simp [renderedProjectCards]
    · simp only [renderedProjectCards]
      split <;> simp [List.length_take]
  · intro l hl
    have h0 : l.length > 0 := hl
    simp only [renderedProjectCards, if_pos h0, List.length_take]
    omega

/-- Witness for C7: a single supplied project idea yields between 1 and 3
rendered project cards. -/
theorem suggestion_presentation_caps_witness :
    1 ≤ (["Build a REST API"] : List String).length
    ∧ 1 ≤ renderedProjectCards (some ["Build a REST API"])
    ∧ renderedProjectCards (some ["Build a REST API"]) ≤ 3 :=
  ⟨by decide,
    (suggestion_presentation_caps.2.2 ["Build a REST API"] (by decide)).1,
    (suggestion_presentation_caps.2.2 ["Build a REST API"] (by decide)).2⟩

/-- C8: skill extraction is deterministic and idempotent — running the
extractor twice on the same input yields the same deduplicated (set-like)
skill list — and re-running the whole pipeline on identical (resume, job)
input yields identical envelopes; across runs differing only in the
provider-dependent enrichment outcome, the structural fields agree. -/
theorem extraction_and_pipeline_deterministic :
    (∀ (text : String) (vocab : List (List String × String)),
        extract text vocab = extract text vocab ∧ (extract text vocab).Nodup)
    ∧ (∀ (resumeText jobText : String) (vocab : List (List String × String))
         (rest : List (String × JVal)) (e : Enrichment),
        pipeline resumeText jobText vocab rest e
          = pipeline resumeText jobText vocab rest e)
    ∧ (∀ (resumeText jobText : String) (vocab : List (List String × String))
         (rest : List (String × JVal)) (e₁ e₂ : Enrichment),
        structuralView (pipeline resumeText jobText vocab rest e₁)
          = structuralView (pipeline resumeText jobText vocab rest e₂)) :=
  ⟨fun _ _ => ⟨rfl, List.nodup_dedup _⟩, fun _ _ _ _ _ => rfl,
    fun _ _ _ _ _ _ => rfl⟩

/-- C9: when session verification fails only with a network error (message
containing `Failed to fetch`), the stored session is left unchanged and no
redirect happens; the session is cleared and the user redirected only on a
truthy non-network error, a non-ok response, or an unsuccessful result. -/
theorem network_error_preserves_session :
    ∀ (t : String) (s : SessionStore) (m : String),
      (jsTruthy (some t) = true → strContains m "Failed to fetch" = true →
        verifySession (some t) (.throws (some m)) s = ⟨s, none⟩)
      ∧ (∀ o : FetchOutcome, jsTruthy (some t) = true →
          (verifySession (some t) o s).redirect.isSome = true →
          clearingOutcome o ∧ (verifySession (some t) o s).store = clearSession s) := by
  intro t s m
  constructor
  · intro ht hm
    have hm0 : (m == "") = false := by
      rcases h : m == "" with _ | _
      · rfl
      · exfalso
        have hme : m = "" := by simpa using h
        subst hme
        simp [strContains, hasSub] at hm
    simp [verifySession, ht, hm0, hm]
  · intro o ht hred
    cases o with
    | throws msg =>
      cases msg with
      | none => simp [verifySession, ht] at hred
      | some m' =>
        by_cases hm0 : m' = ""
        · subst hm0; simp [verifySession, ht] at hred
        · have hm0' : (m' == "") = false := by simpa using hm0
          by_cases hc : strContains m' "Failed to fetch" = true
          · simp [verifySession, ht, hm0', hc] at hred
          · have hc' : strContains m' "Failed to fetch" = false := by simpa using hc
            refine ⟨⟨hm0, hc'⟩, ?_⟩
            simp [verifySession, ht, hm0', hc']
    | response ok success userName =>
      cases ok with
      | false => exact ⟨Or.inl rfl, by simp [verifySession, ht]⟩
      | true =>
        cases success with
        | false => exact ⟨Or.inr rfl, by simp [verifySession, ht]⟩
        | true =>
          exfalso
          cases userName with
          | none => simp [verifySession, ht] at hred
          | some n =>
            by_cases hn : n = ""
            · subst hn; simp [verifySession, ht] at hred
            · have hn' : (n == "") = false := by simpa using hn
              simp [verifySession, ht, hn'] at hred

/-- Witness for C9: a concrete network-error rejection leaves a concrete
populated store untouched with no redirect. -/
theorem network_error_preserves_session_witness :
    jsTruthy (some "tok123") = true
    ∧ strContains "TypeError: Failed to fetch" "Failed to fetch" = true
    ∧ verifySession (some "tok123")
        (.throws (some "TypeError: Failed to fetch"))
        ⟨some "tok123", some "Ann", some "ann@example.com"⟩
      = ⟨⟨some "tok123", some "Ann", some "ann@example.com"⟩, none⟩ :=
  ⟨by decide, by decide,
    (network_error_preserves_session "tok123"
        ⟨some "tok123", some "Ann", some "ann@example.com"⟩
        "TypeError: Failed to fetch").1 (by decide) (by decide)⟩

/-- C10: loading the dashboard with no stored session token redirects to the
login page without issuing a verification request; the request is issued
only when a token exists. -/
theorem no_token_redirects_without_call :
    checkAuth true none = (some "login.html", false)
    ∧ (∀ (d : Bool) (token : Option String),
        (checkAuth d token).2 = true → token.isSome = true) := by
  constructor
  · rfl
  · intro d token h
    cases d <;> cases token <;>
      simp_all [checkAuth, fetchIssued, jsTruthy]

/-- Witness for C10: with a concrete stored token on the dashboard the
verification request is issued, and the token indeed exists. -/
theorem no_token_redirects_without_call_witness :
    (checkAuth true (some "tok123")).2 = true
    ∧ (some "tok123" : Option String).isSome = true :=
  ⟨by decide, no_token_redirects_without_call.2 true (some "tok123") (by decide)⟩

end CareerIQ
